import Mathlib

/-!
Shallow embedding of the ego-bust repository (a browser arcade game whose
score can be submitted on-chain through a smart-account user-operation flow).

Conventions of the embedding:
* JavaScript `number` values are modelled as exact rationals (`ℚ`);
  `BigInt` wei amounts are modelled as integers (`ℤ`).
* React component state is modelled as an explicit record; every async
  handler becomes a pure function from the render-time state (the closure
  the handler captured) and an environment describing the outcomes of the
  external calls (bundler, wallet, RPC) to the list of externally visible
  actions it performs plus the state left behind by its `setX` calls.
  Reads inside one handler invocation always use the captured render-time
  state, mirroring React closures; writes accumulate into the result state.
* Thrown JS errors are classified by which substring the `catch` blocks
  test for (`"timeout"`, `"insufficient funds"`, `"paymaster"`), since the
  code only ever inspects messages through `String.includes`.
-/

namespace EgoBust

/-- viem `parseEther`: a decimal MON amount to an integer amount of wei
(1 MON = 10^18 wei).  All amounts the app passes are exact decimals. -/
def parseEther (x : ℚ) : ℤ := ⌊x * 10 ^ 18⌋

/-- JavaScript `Math.round`: half-up rounding, the floor of `x + 1/2`. -/
def jsRound (x : ℚ) : ℤ := ⌊x + 1 / 2⌋

/-- Source `gweiToWeiBigInt` from the Pimlico variant: `BigInt(Math.round(n * 1e9))`. -/
def gweiToWeiBigInt (g : ℚ) : ℤ := jsRound (g * 10 ^ 9)

/-- Source `weiBigIntToGweiNumber` from the Pimlico variant: `Number(weiBigInt) / 1e9`. -/
def weiBigIntToGweiNumber (w : ℤ) : ℚ := (w : ℚ) / 10 ^ 9

/-- JavaScript `Number(x.toFixed(6))`: round to six decimal places. -/
def toFixed6 (q : ℚ) : ℚ := (jsRound (q * 10 ^ 6) : ℚ) / 10 ^ 6

/-- JavaScript `Number(x.toFixed(9))`: round to nine decimal places. -/
def toFixed9 (q : ℚ) : ℚ := (jsRound (q * 10 ^ 9) : ℚ) / 10 ^ 9

/-- The three gas-speed preset keys shared by the variants. -/
inductive GasSpeed where
  | standard
  | low
  | high
deriving DecidableEq

/-- A gas preset of the wagmi variant (`App.jsx`): wei amounts produced by
`parseEther`, one for `maxFeePerGas` and one for `maxPriorityFeePerGas`. -/
structure GasOption where
  maxFeePerGas : ℤ
  maxPriorityFeePerGas : ℤ
deriving DecidableEq

/-- Source `GAS_SPEED_OPTIONS` of the wagmi variant (`App.jsx`): the prices are
written as decimal MON strings passed to `parseEther`
("0.000000009" = 9 gwei, "0.00000001" = 10 gwei, "0.0000001" = 100 gwei). -/
def GAS_SPEED_OPTIONS : GasSpeed → GasOption
  | .standard =>
      { maxFeePerGas := parseEther (9 / 10 ^ 9)
        maxPriorityFeePerGas := parseEther (9 / 10 ^ 9) }
  | .low =>
      { maxFeePerGas := parseEther (1 / 10 ^ 8)
        maxPriorityFeePerGas := parseEther (1 / 10 ^ 8) }
  | .high =>
      { maxFeePerGas := parseEther (1 / 10 ^ 7)
        maxPriorityFeePerGas := parseEther (1 / 10 ^ 7) }

/-- Source `GAS_SPEED_OPTIONS` of the Pimlico variant (`part_003`): the presets
store plain gwei numbers (standard 9, low 10, high 100). -/
def GAS_SPEED_OPTIONS_P : GasSpeed → ℚ
  | .standard => 9
  | .low => 10
  | .high => 100

/-- Source `calculateRequiredGas` of the wagmi variant (`App.jsx` 490-494):
`parseFloat(maxFeePerGas / 1e18) * 200000`, times a 1.2 buffer. -/
def calculateRequiredGas (gasOptions : GasOption) : ℚ :=
  let gasBuffer : ℚ := 12 / 10
  let baseGasCost : ℚ := ((gasOptions.maxFeePerGas : ℚ) / 10 ^ 18) * 200000
  baseGasCost * gasBuffer

/-- Source `calculateRequiredGasMON` of the Pimlico variant (`part_003` 206-214):
gwei times 1e9 wei, times the estimated gas units, times a 1.2 buffer,
divided by 1e18 to obtain MON. -/
def calculateRequiredGasMON (gwei : ℚ) (estimatedGas : ℚ) : ℚ :=
  let buffer : ℚ := 12 / 10
  let weiPerUnit : ℚ := gwei * 10 ^ 9
  let totalWei : ℚ := weiPerUnit * estimatedGas * buffer
  totalWei / 10 ^ 18

/-!  ### Game objects, spawning and cleanup  -/

/-- One spawned clickable object (`newObj` in the spawn effects): the id is
`Date.now()` (plus `Math.random()` in the Pimlico variant, hence `ℚ`), the
position is integral, `spawnTime` is the `Date.now()` timestamp. -/
structure GameObject where
  id : ℚ
  x : ℤ
  y : ℤ
  image : ℕ
  spawnTime : ℤ
deriving DecidableEq

/-- The `setObjects` updater of `spawnObject` (`App.jsx` 885-890, 1742-1747
and `part_003` 961): if the list already holds 30 or more objects, drop the
first (`slice(1)`) and append the new one, else just append. -/
def spawnPush (prev : List GameObject) (newObj : GameObject) : List GameObject :=
  if 30 ≤ prev.length then prev.drop 1 ++ [newObj] else prev ++ [newObj]

/-- One tick of the cleanup interval (`App.jsx` 913-918, 1769-1774 and
`part_003` 984-987): keep exactly the objects younger than 1000 ms. -/
def cleanupTick (currentTime : ℤ) (prev : List GameObject) : List GameObject :=
  prev.filter (fun obj => currentTime - obj.spawnTime < 1000)

/-- The cleanup effect guard: the interval only runs while the game is
started, not over and not paused (`if (!gameStarted || gameOver || paused)`
clears the interval and returns). -/
def cleanupEffectTick (gameStarted gameOver paused : Bool) (currentTime : ℤ)
    (objs : List GameObject) : List GameObject :=
  if !gameStarted || gameOver || paused then objs else cleanupTick currentTime objs

/-- The `setObjects` updater inside `bustObject`: remove the clicked id. -/
def bustRemove (id : ℚ) (prev : List GameObject) : List GameObject :=
  prev.filter (fun obj => obj.id ≠ id)

/-- The events that update the `objects` state while the app runs: a spawn
tick, a cleanup tick, the removal half of a bust click, and the resets
(`startGame`, `quitGame`, timer expiry) that set the list to `[]`. -/
inductive GameEvent where
  | spawnEv (o : GameObject)
  | cleanupEv (now : ℤ)
  | bustEv (id : ℚ)
  | clearEv
deriving DecidableEq

/-- Apply one `objects` update. -/
def applyGameEvent : GameEvent → List GameObject → List GameObject
  | .spawnEv o, objs => spawnPush objs o
  | .cleanupEv now, objs => cleanupTick now objs
  | .bustEv id, objs => bustRemove id objs
  | .clearEv, _ => []

/-- Run a sequence of `objects` updates from the initial `useState([])`. -/
def runGame (es : List GameEvent) : List GameObject :=
  es.foldl (fun objs e => applyGameEvent e objs) []

/-!  ### Externally visible actions and error classification  -/

/-- The alert dialogs the handlers can show, one constructor per distinct
`alert(...)` message family in the source. -/
inductive AlertKind where
  | serviceUnavailable
  | needsGas
  | timeoutMsg
  | fundFirst
  | saveFailed
  | saveSuccess
  | claimThreshold
  | claimSuccess
  | claimFailed
  | paymasterDown
  | invalidAmount
  | invalidAddress
  | invalidDetails
  | insufficientBalance
  | transferSuccess
  | transferFailed
  | noWallet
  | connectFirst
  | savedOnChain
  | saveScoreFailedMsg
deriving DecidableEq

/-- The contract call a user operation carries. -/
inductive CallTarget where
  | rewardAddScore
  | rewardClaim
  | monTransfer
  | wmonTransfer
deriving DecidableEq

/-- Destination of a plain (main-wallet) transaction. -/
inductive TxDest where
  | smartAccountAddr
  | transferToAddr
  | wmonContract
deriving DecidableEq

/-- Which handler a `setTimeout(handler, 2000)` retry re-invokes. -/
inductive OpKind where
  | saveOp
  | claimOp
  | transferOp
deriving DecidableEq

/-- Externally visible steps a handler takes, in order of occurrence:
alert dialogs, main-wallet `walletClient.sendTransaction` calls (with
destination and wei value), smart-account `bundlerClient.sendUserOperation`
submissions, and scheduled retries. -/
inductive Action where
  | alert (k : AlertKind)
  | sendTransaction (dest : TxDest) (value : ℤ)
  | sendUserOperation (target : CallTarget)
  | scheduleRetry (op : OpKind)
deriving DecidableEq

/-- How a thrown error is classified by the `catch` blocks, which only look
for the substrings "timeout"/"Timed out", "insufficient funds" and
"paymaster" in the message. -/
inductive ErrKind where
  | timeout
  | insufficientFunds
  | paymaster
  | other
deriving DecidableEq

/-!  ### The wagmi variant (`App.jsx`, component `GameApp`)  -/

/-- Source `playerStats` record. -/
structure PlayerStats where
  totalScore : ℕ
  totalGames : ℕ
  pendingRewardsStat : ℚ
  totalClaimed : ℚ
deriving DecidableEq

/-- Direction of a funds transfer. -/
inductive TransferDirection where
  | toSmart
  | toMain
deriving DecidableEq

/-- Asset of a funds transfer. -/
inductive TransferType where
  | mon
  | wmon
deriving DecidableEq

/-- Render-time state of the wagmi `GameApp` component: the `useState`
variables the embedded handlers read or write.  Clients, accounts and
addresses are modelled by their presence (`Bool` for a non-null value);
balance strings are modelled by the rational they parse to; `transferTo`
is modelled by whether it is non-empty and whether it matches the address
regex.  Purely presentational state (menus, leaderboard data, the custom
gas text box being shown) keeps only the fields the handlers branch on. -/
structure WState where
  isConnected : Bool
  smartAccount : Bool
  smartAccountAddress : Bool
  bundlerClient : Bool
  walletClient : Bool
  scoreSaved : Bool
  isSavingScore : Bool
  isClaiming : Bool
  isTransferring : Bool
  monBalance : ℚ
  mainAccountMonBalance : ℚ
  wmonBalance : ℚ
  mainAccountWmonBalance : ℚ
  pendingRewards : ℚ
  pendingTxHash : Bool
  selectedGasSpeed : GasSpeed
  showCustomGas : Bool
  customGasPrice : Option ℚ
  transferAmount : Option ℚ
  transferToSet : Bool
  transferToValid : Bool
  transferDirection : TransferDirection
  transferType : TransferType
  showTransferModal : Bool
  gameStarted : Bool
  gameOver : Bool
  paused : Bool
  score : ℕ
  time : ℤ
  objects : List GameObject
  clickedObjects : List ℚ
  copiedAddress : Bool
  playerStats : PlayerStats
deriving DecidableEq

/-- Source `getCurrentGasOptions` of the wagmi variant (`App.jsx` 223-238): a
custom gwei price, when the custom box is shown and parses to a positive
number, is converted through `parseEther((customGwei / 1e9).toFixed(9))`;
otherwise the selected preset is used. -/
def getCurrentGasOptionsW (s : WState) : GasOption :=
  match s.showCustomGas, s.customGasPrice with
  | true, some customGwei =>
      if 0 < customGwei then
        { maxFeePerGas := parseEther (toFixed9 (customGwei / 10 ^ 9))
          maxPriorityFeePerGas := parseEther (toFixed9 (customGwei / 10 ^ 9)) }
      else GAS_SPEED_OPTIONS s.selectedGasSpeed
  | _, _ => GAS_SPEED_OPTIONS s.selectedGasSpeed

/-- Outcomes of the external calls one wagmi user-operation flow makes. -/
structure UserOpEnv where
  sendErr : Option ErrKind
  receiptErr : Option ErrKind
deriving DecidableEq

/-- The `catch` dispatch of the wagmi `saveScoreAndAccumulate` and
`transferFunds` (timeout first, then insufficient funds, then generic). -/
def saveCatchW (e : ErrKind) : AlertKind :=
  match e with
  | .timeout => .timeoutMsg
  | .insufficientFunds => .fundFirst
  | _ => .saveFailed

/-- The `catch` dispatch of the wagmi `transferFunds` (`App.jsx` 653-663):
timeout, insufficient funds, then the generic transfer failure. -/
def transferCatchW (e : ErrKind) : AlertKind :=
  match e with
  | .timeout => .timeoutMsg
  | .insufficientFunds => .fundFirst
  | _ => .transferFailed

/-- Source `saveScoreAndAccumulate` of the wagmi variant (`App.jsx` 718-793).
Guard, saving flag, bundler check, balance-vs-gas check, submission,
receipt wait, then the success writes; every abnormal exit goes through
the `catch`/`finally` pair. -/
def saveScoreAndAccumulateW (s : WState) (env : UserOpEnv) : List Action × WState :=
  if !s.smartAccount || s.scoreSaved then ([], s)
  else
    let acc0 := { s with isSavingScore := true }
    if !s.bundlerClient then
      ([.alert .serviceUnavailable], { acc0 with isSavingScore := false })
    else
      let gasOptions := getCurrentGasOptionsW s
      let requiredGas := calculateRequiredGas gasOptions
      if s.monBalance < requiredGas then
        ([.alert .needsGas], { acc0 with isSavingScore := false })
      else
        match env.sendErr with
        | some e => ([.alert (saveCatchW e)], { acc0 with isSavingScore := false })
        | none =>
          let acc1 := { acc0 with pendingTxHash := true }
          match env.receiptErr with
          | some e =>
              ([.sendUserOperation .rewardAddScore, .alert (saveCatchW e)],
               { acc1 with isSavingScore := false })
          | none =>
              ([.sendUserOperation .rewardAddScore, .alert .saveSuccess],
               { acc1 with scoreSaved := true, pendingTxHash := false,
                           isSavingScore := false })

/-- The `catch` dispatch of the wagmi `claimRewards` (`App.jsx` 849-855):
insufficient funds, otherwise a generic failure (no timeout branch). -/
def claimCatchW (e : ErrKind) : AlertKind :=
  match e with
  | .insufficientFunds => .fundFirst
  | _ => .claimFailed

/-- Source `claimRewards` of the wagmi variant (`App.jsx` 796-859): threshold
check before anything else, then the same bundler/balance/submission
pattern as score saving; no `pendingTxHash` is recorded. -/
def claimRewardsW (s : WState) (env : UserOpEnv) : List Action × WState :=
  if !s.smartAccount then ([], s)
  else if s.pendingRewards < 1 then ([.alert .claimThreshold], s)
  else
    let acc0 := { s with isClaiming := true }
    if !s.bundlerClient then
      ([.alert .serviceUnavailable], { acc0 with isClaiming := false })
    else
      let gasOptions := getCurrentGasOptionsW s
      let requiredGas := calculateRequiredGas gasOptions
      if s.monBalance < requiredGas then
        ([.alert .needsGas], { acc0 with isClaiming := false })
      else
        match env.sendErr with
        | some e => ([.alert (claimCatchW e)], { acc0 with isClaiming := false })
        | none =>
          match env.receiptErr with
          | some e =>
              ([.sendUserOperation .rewardClaim, .alert (claimCatchW e)],
               { acc0 with isClaiming := false })
          | none =>
              ([.sendUserOperation .rewardClaim, .alert .claimSuccess],
               { acc0 with isClaiming := false })

/-- Outcomes of the external calls `transferFunds` makes in the wagmi
variant: the plain wallet transaction (main-to-smart) and the user
operation with its receipt (smart-to-main). -/
structure TransferEnvW where
  walletTxErr : Option ErrKind
  sendErr : Option ErrKind
  receiptErr : Option ErrKind
deriving DecidableEq

/-- Form reset after a successful transfer (`App.jsx` 647-651) plus the
`finally` clearing of the transferring flag. -/
def finishTransferW (acc : WState) : WState :=
  { acc with transferAmount := none, transferToSet := false,
             showTransferModal := false, isTransferring := false }

/-- Source `transferFunds` of the wagmi variant (`App.jsx` 497-666).  Main-to-smart
transfers are plain wallet transactions guarded only by an amount-vs-balance
check; smart-to-main transfers go through the bundler and are additionally
guarded by the balance-vs-required-gas check. -/
def transferFundsW (s : WState) (env : TransferEnvW) : List Action × WState :=
  if s.transferAmount.isNone || !s.transferToSet || !s.smartAccount then ([], s)
  else
    let acc0 := { s with isTransferring := true }
    let amount := s.transferAmount.getD 0
    if amount ≤ 0 then ([.alert .invalidAmount], { acc0 with isTransferring := false })
    else if !s.transferToValid then
      ([.alert .invalidAddress], { acc0 with isTransferring := false })
    else
      let gasOptions := getCurrentGasOptionsW s
      match s.transferDirection, s.transferType with
      | .toSmart, .mon =>
          if s.mainAccountMonBalance < amount then
            ([.alert .insufficientBalance], { acc0 with isTransferring := false })
          else
            match env.walletTxErr with
            | some e => ([.alert (transferCatchW e)], { acc0 with isTransferring := false })
            | none =>
                ([.sendTransaction .transferToAddr (parseEther amount),
                  .alert .transferSuccess],
                 finishTransferW { acc0 with pendingTxHash := true })
      | .toSmart, .wmon =>
          if s.mainAccountWmonBalance < amount then
            ([.alert .insufficientBalance], { acc0 with isTransferring := false })
          else
            match env.walletTxErr with
            | some e => ([.alert (transferCatchW e)], { acc0 with isTransferring := false })
            | none =>
                ([.sendTransaction .wmonContract (parseEther amount),
                  .alert .transferSuccess],
                 finishTransferW { acc0 with pendingTxHash := true })
      | .toMain, ty =>
          if !s.bundlerClient then
            ([.alert .serviceUnavailable], { acc0 with isTransferring := false })
          else
            let srcBalance := match ty with
              | .mon => s.monBalance
              | .wmon => s.wmonBalance
            let target : CallTarget := match ty with
              | .mon => .monTransfer
              | .wmon => .wmonTransfer
            if srcBalance < amount then
              ([.alert .insufficientBalance], { acc0 with isTransferring := false })
            else
              let requiredGas := calculateRequiredGas gasOptions
              if s.monBalance < requiredGas then
                ([.alert .needsGas], { acc0 with isTransferring := false })
              else
                match env.sendErr with
                | some e => ([.alert (transferCatchW e)], { acc0 with isTransferring := false })
                | none =>
                  let acc1 := { acc0 with pendingTxHash := true }
                  match env.receiptErr with
                  | some e =>
                      ([.sendUserOperation target, .alert (transferCatchW e)],
                       { acc1 with isTransferring := false })
                  | none =>
                      ([.sendUserOperation target, .alert .transferSuccess],
                       finishTransferW acc1)

/-- Source `startGame` of the wagmi variant (`App.jsx` 940-954). -/
def startGameW (s : WState) : List Action × WState :=
  if !s.isConnected then ([.alert .connectFirst], s)
  else
    ([], { s with gameStarted := true, gameOver := false, paused := false,
                  score := 0, time := 30, objects := [], clickedObjects := [],
                  scoreSaved := false })

/-- Source `quitGame` of the wagmi variant (`App.jsx` 956-963). -/
def quitGameW (s : WState) : WState :=
  { s with gameStarted := false, gameOver := false, paused := false,
           objects := [], clickedObjects := [], scoreSaved := false }

/-- Source `disconnectWallet` of the wagmi variant (`App.jsx` 361-380). -/
def disconnectWalletW (s : WState) : WState :=
  { s with smartAccount := false, smartAccountAddress := false,
           bundlerClient := false, wmonBalance := 0, monBalance := 0,
           mainAccountMonBalance := 0, mainAccountWmonBalance := 0,
           pendingRewards := 0,
           playerStats := { totalScore := 0, totalGames := 0,
                            pendingRewardsStat := 0, totalClaimed := 0 },
           scoreSaved := false, copiedAddress := false, pendingTxHash := false }

/-- Source `initializeSmartAccount` effect of the wagmi variant
(`App.jsx` 265-319), successful path: whenever the wallet (re)connects the
effect recreates the bundler client and the smart account with its
address, and the balance and player-stat loaders write back the values
read from the chain (passed here as parameters).  The `isConnecting` flag
and the leaderboard list are not tracked in `WState`.  Note that it does
not touch `scoreSaved` or any game field. -/
def initializeSmartAccountW (s : WState) (mon mainMon wmon mainWmon pr : ℚ)
    (ps : PlayerStats) : WState :=
  { s with bundlerClient := true, smartAccount := true,
           smartAccountAddress := true,
           mainAccountMonBalance := mainMon, mainAccountWmonBalance := mainWmon,
           monBalance := mon, wmonBalance := wmon,
           playerStats := ps, pendingRewards := pr }

/-- The effect at `App.jsx` 330-334: whenever `gameStarted` flips, reset
`scoreSaved` if the game is (now) started. -/
def scoreSavedEffectW (s : WState) : WState :=
  if s.gameStarted then { s with scoreSaved := false } else s

/-!  ### The Pimlico variant (`part_003`)  -/

/-- Render-time state of the Pimlico `GameApp` component.  Same modelling
conventions as `WState`; this variant additionally has the auto-fill
switch and progress flag, and keeps the main account address around for
the auto-fill transfer. -/
structure PState where
  isConnected : Bool
  address : Bool
  smartAccount : Bool
  smartAccountAddress : Bool
  bundlerClient : Bool
  walletClient : Bool
  scoreSaved : Bool
  isSavingScore : Bool
  isClaiming : Bool
  isTransferring : Bool
  autoFillEnabled : Bool
  isAutoFilling : Bool
  monBalance : ℚ
  mainAccountMonBalance : ℚ
  wmonBalance : ℚ
  mainAccountWmonBalance : ℚ
  pendingRewards : ℚ
  pendingTxHash : Bool
  selectedGasSpeed : GasSpeed
  showCustomGas : Bool
  customGasPrice : Option ℚ
  transferAmount : Option ℚ
  transferToSet : Bool
  transferToValid : Bool
  transferDirection : TransferDirection
  transferType : TransferType
  showTransferModal : Bool
deriving DecidableEq

/-- Source `getCurrentGasOptions` of the Pimlico variant (`part_003` 188-201):
returns the gwei number of the custom price (when shown and positive) or
of the selected preset. -/
def getCurrentGasOptionsP (s : PState) : ℚ :=
  match s.showCustomGas, s.customGasPrice with
  | true, some customGwei =>
      if 0 < customGwei then customGwei else GAS_SPEED_OPTIONS_P s.selectedGasSpeed
  | _, _ => GAS_SPEED_OPTIONS_P s.selectedGasSpeed

/-- Outcomes of one `autoFillGasIfNeeded` run: whether the wallet
transaction succeeds, and the four balances `loadAllBalances` reads back
from the chain afterwards. -/
structure AutoFillEnv where
  sendTxOk : Bool
  reloadedMon : ℚ
  reloadedMainMon : ℚ
  reloadedWmon : ℚ
  reloadedMainWmon : ℚ
deriving DecidableEq

/-- Source `autoFillGasIfNeeded` (`part_003` 455-492).  `s` is the render-time
state the handler's closure reads; `acc` is the state accumulated by the
`setX` calls the enclosing handler already made (the function reads only
from `s`, mirroring the stale-closure semantics, and its own writes extend
`acc`).  Returns the JS boolean result, the actions performed, and the
accumulated state. -/
def autoFillGasIfNeeded (s acc : PState) (env : AutoFillEnv) (requiredGasMON : ℚ) :
    Bool × List Action × PState :=
  if !s.autoFillEnabled || !s.smartAccountAddress || !s.address || !s.walletClient then
    (false, [], acc)
  else if requiredGasMON ≤ s.monBalance then (true, [], acc)
  else
    let transferAmountMON := toFixed6 (requiredGasMON * (11 / 10))
    if s.mainAccountMonBalance < transferAmountMON then
      (false, [], { acc with isAutoFilling := false })
    else if env.sendTxOk then
      (true,
       [.sendTransaction .smartAccountAddr (parseEther transferAmountMON)],
       { acc with pendingTxHash := true,
                  monBalance := env.reloadedMon,
                  mainAccountMonBalance := env.reloadedMainMon,
                  wmonBalance := env.reloadedWmon,
                  mainAccountWmonBalance := env.reloadedMainWmon,
                  isAutoFilling := false })
    else
      (false,
       [.sendTransaction .smartAccountAddr (parseEther transferAmountMON)],
       { acc with isAutoFilling := false })

/-- Outcomes of the external calls one Pimlico flow makes: the
`pimlico_getUserOperationGasPrice` fetch (already reduced to the wei pair,
`none` when the fetch fails or returns an unusable shape), the pre-check
auto-fill, the user-operation submission, the receipt wait, and the
auto-fill the `catch` block may run. -/
structure PEnv where
  pimlicoGas : Option (ℤ × ℤ)
  autoFill : AutoFillEnv
  sendErr : Option ErrKind
  receiptErr : Option ErrKind
  catchAutoFill : AutoFillEnv
deriving DecidableEq

/-- The `maxFeePerGas` actually used: the fetched Pimlico fast price, or
`gweiToWeiBigInt` of the current preset as fallback. -/
def pimlicoFee (env : PEnv) (gasPresetGwei : ℚ) : ℤ :=
  (env.pimlicoGas.map Prod.fst).getD (gweiToWeiBigInt gasPresetGwei)

/-- The `catch` block of the Pimlico `saveScoreAndAccumulate`
(`part_003` 828-852): on an insufficient-funds error with auto-fill
enabled and not already in progress, run the auto-fill and schedule a
retry when it succeeds; otherwise dispatch on paymaster / timeout /
generic.  The `finally` clearing of `isSavingScore` is included. -/
def saveCatchP (s acc : PState) (env : PEnv) (e : ErrKind) : List Action × PState :=
  if e = .insufficientFunds then
    if s.autoFillEnabled && !s.isAutoFilling then
      let requiredGasMON := calculateRequiredGasMON (getCurrentGasOptionsP s) 250000
      match autoFillGasIfNeeded s acc env.catchAutoFill requiredGasMON with
      | (true, aActs, acc1) =>
          (aActs ++ [.scheduleRetry .saveOp], { acc1 with isSavingScore := false })
      | (false, aActs, acc1) =>
          (aActs ++ [.alert .fundFirst], { acc1 with isSavingScore := false })
    else ([.alert .fundFirst], { acc with isSavingScore := false })
  else if e = .paymaster then ([.alert .paymasterDown], { acc with isSavingScore := false })
  else if e = .timeout then ([.alert .timeoutMsg], { acc with isSavingScore := false })
  else ([.alert .saveFailed], { acc with isSavingScore := false })

/-- Submission half of the Pimlico `saveScoreAndAccumulate`: user
operation, receipt wait, success writes; failures go to `saveCatchP`. -/
def saveSubmitP (s : PState) (env : PEnv) (acc : PState) (pre : List Action) :
    List Action × PState :=
  match env.sendErr with
  | some e =>
      let r := saveCatchP s acc env e
      (pre ++ r.1, r.2)
  | none =>
    let acc1 := { acc with pendingTxHash := true }
    match env.receiptErr with
    | some e =>
        let r := saveCatchP s acc1 env e
        (pre ++ [Action.sendUserOperation .rewardAddScore] ++ r.1, r.2)
    | none =>
        (pre ++ [Action.sendUserOperation .rewardAddScore, Action.alert .saveSuccess],
         { acc1 with scoreSaved := true, pendingTxHash := false,
                     isSavingScore := false })

/-- Source `saveScoreAndAccumulate` of the Pimlico variant (`part_003` 756-853):
guard, saving flag, bundler check, Pimlico gas fetch with preset fallback,
required-MON computation over 250000 gas units, balance check with
auto-fill, submission. -/
def saveScoreAndAccumulateP (s : PState) (env : PEnv) : List Action × PState :=
  if !s.smartAccount || s.scoreSaved then ([], s)
  else
    let acc0 := { s with isSavingScore := true }
    if !s.bundlerClient then
      ([.alert .serviceUnavailable], { acc0 with isSavingScore := false })
    else
      let maxFeePerGasWei := pimlicoFee env (getCurrentGasOptionsP s)
      let requiredGasMON :=
        calculateRequiredGasMON (weiBigIntToGweiNumber maxFeePerGasWei) 250000
      if s.monBalance < requiredGasMON then
        if s.autoFillEnabled then
          match autoFillGasIfNeeded s acc0 env.autoFill requiredGasMON with
          | (true, aActs, acc1) => saveSubmitP s env acc1 aActs
          | (false, aActs, acc1) =>
              (aActs ++ [.alert .needsGas], { acc1 with isSavingScore := false })
        else ([.alert .needsGas], { acc0 with isSavingScore := false })
      else saveSubmitP s env acc0 []

/-- The `catch` block of the Pimlico `claimRewards` (`part_003` 913-931):
insufficient funds (with the auto-fill retry), paymaster, generic. -/
def claimCatchP (s acc : PState) (env : PEnv) (e : ErrKind) : List Action × PState :=
  if e = .insufficientFunds then
    if s.autoFillEnabled && !s.isAutoFilling then
      let requiredGasMON := calculateRequiredGasMON (getCurrentGasOptionsP s) 250000
      match autoFillGasIfNeeded s acc env.catchAutoFill requiredGasMON with
      | (true, aActs, acc1) =>
          (aActs ++ [.scheduleRetry .claimOp], { acc1 with isClaiming := false })
      | (false, aActs, acc1) =>
          (aActs ++ [.alert .fundFirst], { acc1 with isClaiming := false })
    else ([.alert .fundFirst], { acc with isClaiming := false })
  else if e = .paymaster then ([.alert .paymasterDown], { acc with isClaiming := false })
  else ([.alert .claimFailed], { acc with isClaiming := false })

/-- Submission half of the Pimlico `claimRewards` (no `pendingTxHash` is
recorded in this flow). -/
def claimSubmitP (s : PState) (env : PEnv) (acc : PState) (pre : List Action) :
    List Action × PState :=
  match env.sendErr with
  | some e =>
      let r := claimCatchP s acc env e
      (pre ++ r.1, r.2)
  | none =>
    match env.receiptErr with
    | some e =>
        let r := claimCatchP s acc env e
        (pre ++ [Action.sendUserOperation .rewardClaim] ++ r.1, r.2)
    | none =>
        (pre ++ [Action.sendUserOperation .rewardClaim, Action.alert .claimSuccess],
         { acc with isClaiming := false })

/-- Source `claimRewards` of the Pimlico variant (`part_003` 858-935). -/
def claimRewardsP (s : PState) (env : PEnv) : List Action × PState :=
  if !s.smartAccount then ([], s)
  else if s.pendingRewards < 1 then ([.alert .claimThreshold], s)
  else
    let acc0 := { s with isClaiming := true }
    if !s.bundlerClient then
      ([.alert .serviceUnavailable], { acc0 with isClaiming := false })
    else
      let maxFeePerGasWei := pimlicoFee env (getCurrentGasOptionsP s)
      let requiredGasMON :=
        calculateRequiredGasMON (weiBigIntToGweiNumber maxFeePerGasWei) 250000
      if s.monBalance < requiredGasMON then
        if s.autoFillEnabled then
          match autoFillGasIfNeeded s acc0 env.autoFill requiredGasMON with
          | (true, aActs, acc1) => claimSubmitP s env acc1 aActs
          | (false, aActs, acc1) =>
              (aActs ++ [.alert .needsGas], { acc1 with isClaiming := false })
        else ([.alert .needsGas], { acc0 with isClaiming := false })
      else claimSubmitP s env acc0 []

/-- Outcomes of the external calls the Pimlico `transferFunds` makes. -/
structure PTransferEnv where
  walletTxErr : Option ErrKind
  pimlicoGas : Option (ℤ × ℤ)
  autoFill : AutoFillEnv
  sendErr : Option ErrKind
  receiptErr : Option ErrKind
  catchAutoFill : AutoFillEnv
deriving DecidableEq

/-- The `catch` block of the Pimlico `transferFunds` (`part_003` 691-714):
timeout first, then insufficient funds (with the auto-fill retry), then
generic.  Includes the `finally` clearing of `isTransferring`. -/
def transferCatchP (s acc : PState) (env : PTransferEnv) (e : ErrKind) :
    List Action × PState :=
  if e = .timeout then ([.alert .timeoutMsg], { acc with isTransferring := false })
  else if e = .insufficientFunds then
    if s.autoFillEnabled && !s.isAutoFilling then
      let requiredGasMON := calculateRequiredGasMON (getCurrentGasOptionsP s) 200000
      match autoFillGasIfNeeded s acc env.catchAutoFill requiredGasMON with
      | (true, aActs, acc1) =>
          (aActs ++ [.scheduleRetry .transferOp], { acc1 with isTransferring := false })
      | (false, aActs, acc1) =>
          (aActs ++ [.alert .fundFirst], { acc1 with isTransferring := false })
    else ([.alert .fundFirst], { acc with isTransferring := false })
  else ([.alert .transferFailed], { acc with isTransferring := false })

/-- Form reset after a successful transfer (`part_003` 687-690) plus the
`finally` clearing of the transferring flag. -/
def finishTransferP (acc : PState) : PState :=
  { acc with transferAmount := none, transferToSet := false,
             showTransferModal := false, isTransferring := false }

/-- Submission half of the Pimlico smart-to-main transfer: amount-vs-source
balance check (on the stale closure balance, even right after an auto-fill),
user operation, receipt wait, form reset. -/
def transferSubmitP (s : PState) (env : PTransferEnv) (acc : PState)
    (pre : List Action) : List Action × PState :=
  let amount := s.transferAmount.getD 0
  let srcBalance := match s.transferType with
    | .mon => s.monBalance
    | .wmon => s.wmonBalance
  let target : CallTarget := match s.transferType with
    | .mon => .monTransfer
    | .wmon => .wmonTransfer
  if srcBalance < amount then
    (pre ++ [.alert .insufficientBalance], { acc with isTransferring := false })
  else
    match env.sendErr with
    | some e =>
        let r := transferCatchP s acc env e
        (pre ++ r.1, r.2)
    | none =>
      let acc1 := { acc with pendingTxHash := true }
      match env.receiptErr with
      | some e =>
          let r := transferCatchP s acc1 env e
          (pre ++ [Action.sendUserOperation target] ++ r.1, r.2)
      | none =>
          (pre ++ [Action.sendUserOperation target, Action.alert .transferSuccess],
           finishTransferP acc1)

/-- Source `transferFunds` of the Pimlico variant (`part_003` 544-714).  The
`transferType`/`transferDirection` falsiness guards of line 545 can never
fire (both are always non-empty string constants), so only the amount and
recipient guards are modelled.  A missing wallet client on the
main-to-smart path throws and lands in the generic `catch` branch. -/
def transferFundsP (s : PState) (env : PTransferEnv) : List Action × PState :=
  if s.transferAmount.isNone || !s.transferToSet then ([.alert .invalidDetails], s)
  else
    let acc0 := { s with isTransferring := true }
    let amount := s.transferAmount.getD 0
    if amount ≤ 0 then ([.alert .invalidAmount], { acc0 with isTransferring := false })
    else if !s.transferToValid then
      ([.alert .invalidAddress], { acc0 with isTransferring := false })
    else
      match s.transferDirection with
      | .toSmart =>
          if !s.walletClient then
            ([.alert .transferFailed], { acc0 with isTransferring := false })
          else
            let srcBalance := match s.transferType with
              | .mon => s.mainAccountMonBalance
              | .wmon => s.mainAccountWmonBalance
            let dest : TxDest := match s.transferType with
              | .mon => .transferToAddr
              | .wmon => .wmonContract
            if srcBalance < amount then
              ([.alert .insufficientBalance], { acc0 with isTransferring := false })
            else
              match env.walletTxErr with
              | some e =>
                  let r := transferCatchP s acc0 env e
                  r
              | none =>
                  ([.sendTransaction dest (parseEther amount), .alert .transferSuccess],
                   finishTransferP { acc0 with pendingTxHash := true })
      | .toMain =>
          if !s.bundlerClient || !s.smartAccount then
            ([.alert .serviceUnavailable], { acc0 with isTransferring := false })
          else
            let maxFeePerGasWei :=
              (env.pimlicoGas.map Prod.fst).getD (gweiToWeiBigInt (getCurrentGasOptionsP s))
            let requiredGasMON :=
              calculateRequiredGasMON (weiBigIntToGweiNumber maxFeePerGasWei) 200000
            if s.monBalance < requiredGasMON then
              if s.autoFillEnabled then
                match autoFillGasIfNeeded s acc0 env.autoFill requiredGasMON with
                | (true, aActs, acc1) => transferSubmitP s env acc1 aActs
                | (false, aActs, acc1) =>
                    (aActs ++ [.alert .needsGas], { acc1 with isTransferring := false })
              else ([.alert .needsGas], { acc0 with isTransferring := false })
            else transferSubmitP s env acc0 []

/-!  ### The plain-ethers variant (`App.jsx`, second component `App`)  -/

/-- Render-time state of the plain-ethers component: it has no smart
account, no bundler and no balance state at all, only the injected
provider and the connected address. -/
structure EState where
  windowEthereum : Bool
  walletAddress : Bool
deriving DecidableEq

/-- Externally visible steps of the ethers component: alert dialogs and the
direct `contract.saveScore(score)` transaction sent through the signer. -/
inductive EAction where
  | alertE (k : AlertKind)
  | contractSaveScoreTx
deriving DecidableEq

/-- Source `saveScore` of the plain-ethers component (`App.jsx` 1833-1849): after
the wallet guards it submits `contract.saveScore(score)` straight through
the signer - no smart-account user operation, no gas or balance check of
any kind.  `txOk` is whether the transaction call and its `wait` succeed. -/
def saveScoreEthers (s : EState) (txOk : Bool) : List EAction × EState :=
  if !s.windowEthereum then ([.alertE .noWallet], s)
  else if !s.walletAddress then ([.alertE .connectFirst], s)
  else if txOk then ([.contractSaveScoreTx, .alertE .savedOnChain], s)
  else ([.contractSaveScoreTx, .alertE .saveScoreFailedMsg], s)

/-- The auto-fill call as a predicate of the render-time state only: its
boolean result never depends on the accumulated writes `acc`. -/
def autoFillOk (s : PState) (env : AutoFillEnv) (req : ℚ) : Bool :=
  (autoFillGasIfNeeded s s env req).1

/-!  ### Concrete sample data used by the witness theorems  -/

/-- A young sample object. -/
def witGameObjA : GameObject :=
  { id := 1, x := 5, y := 6, image := 3, spawnTime := 100 }

/-- An older sample object. -/
def witGameObjB : GameObject :=
  { id := 2, x := 7, y := 8, image := 4, spawnTime := 2100 }

/-- A connected, funded sample state of the wagmi component. -/
def baseW : WState :=
  { isConnected := true, smartAccount := true, smartAccountAddress := true,
    bundlerClient := true, walletClient := true, scoreSaved := false,
    isSavingScore := false, isClaiming := false, isTransferring := false,
    monBalance := 1, mainAccountMonBalance := 5, wmonBalance := 2,
    mainAccountWmonBalance := 3, pendingRewards := 2, pendingTxHash := false,
    selectedGasSpeed := .low, showCustomGas := false, customGasPrice := none,
    transferAmount := none, transferToSet := false, transferToValid := false,
    transferDirection := .toSmart, transferType := .mon,
    showTransferModal := false, gameStarted := false, gameOver := false,
    paused := false, score := 120, time := 0, objects := [],
    clickedObjects := [], copiedAddress := false,
    playerStats := { totalScore := 0, totalGames := 0,
                     pendingRewardsStat := 0, totalClaimed := 0 } }

/-- A connected, funded sample state of the Pimlico component. -/
def baseP : PState :=
  { isConnected := true, address := true, smartAccount := true,
    smartAccountAddress := true, bundlerClient := true, walletClient := true,
    scoreSaved := false, isSavingScore := false, isClaiming := false,
    isTransferring := false, autoFillEnabled := true, isAutoFilling := false,
    monBalance := 1, mainAccountMonBalance := 5, wmonBalance := 2,
    mainAccountWmonBalance := 3, pendingRewards := 2, pendingTxHash := false,
    selectedGasSpeed := .low, showCustomGas := false, customGasPrice := none,
    transferAmount := none, transferToSet := false, transferToValid := false,
    transferDirection := .toSmart, transferType := .mon,
    showTransferModal := false }

/-- An environment in which every external call succeeds. -/
def envOkW : UserOpEnv := { sendErr := none, receiptErr := none }

/-- An auto-fill environment whose wallet transaction succeeds. -/
def envOkAuto : AutoFillEnv :=
  { sendTxOk := true, reloadedMon := 3, reloadedMainMon := 2,
    reloadedWmon := 2, reloadedMainWmon := 3 }

/-- A Pimlico environment in which every external call succeeds and the
gas-price fetch falls back to the presets. -/
def envOkP : PEnv :=
  { pimlicoGas := none, autoFill := envOkAuto, sendErr := none,
    receiptErr := none, catchAutoFill := envOkAuto }

/-!  ### Theorems  -/

/-- C2: the two gas-cost estimators compute the same value.  For every gas
price `w` (in wei per gas unit, so `w / 1e9` gwei as computed by
`weiBigIntToGweiNumber`) and an estimated gas of 200000 units, the wagmi
`calculateRequiredGas` and the Pimlico `calculateRequiredGasMON` return
the same required MON amount, namely the price in MON per gas unit times
200000 times the 1.2 buffer. -/
theorem gas_estimators_agree (w : ℤ) :
    calculateRequiredGas { maxFeePerGas := w, maxPriorityFeePerGas := w } =
      calculateRequiredGasMON (weiBigIntToGweiNumber w) 200000 ∧
    calculateRequiredGas { maxFeePerGas := w, maxPriorityFeePerGas := w } =
      ((w : ℚ) / 10 ^ 18) * 200000 * (12 / 10) := by
  unfold calculateRequiredGas calculateRequiredGasMON weiBigIntToGweiNumber
  constructor
  · ring
  · ring

/-- C6: the gas-speed tiers are exactly three presets with fixed prices
(standard 9 gwei, low 10 gwei, high 100 gwei), in every wagmi preset the
priority fee equals the max fee, and the Pimlico gwei table denotes the
same three prices once converted to wei. -/
theorem gas_presets_consistent :
    (∀ sp : GasSpeed,
      (GAS_SPEED_OPTIONS sp).maxPriorityFeePerGas = (GAS_SPEED_OPTIONS sp).maxFeePerGas) ∧
    (GAS_SPEED_OPTIONS .standard).maxFeePerGas = 9 * 10 ^ 9 ∧
    (GAS_SPEED_OPTIONS .low).maxFeePerGas = 10 * 10 ^ 9 ∧
    (GAS_SPEED_OPTIONS .high).maxFeePerGas = 100 * 10 ^ 9 ∧
    (∀ sp : GasSpeed,
      gweiToWeiBigInt (GAS_SPEED_OPTIONS_P sp) = (GAS_SPEED_OPTIONS sp).maxFeePerGas) := by
  refine ⟨fun sp => by cases sp <;> rfl, ?_, ?_, ?_, fun sp => ?_⟩
  · norm_num [GAS_SPEED_OPTIONS, parseEther]
  · norm_num [GAS_SPEED_OPTIONS, parseEther]
  · norm_num [GAS_SPEED_OPTIONS, parseEther]
  · cases sp <;>
      norm_num [GAS_SPEED_OPTIONS, GAS_SPEED_OPTIONS_P, gweiToWeiBigInt, jsRound,
        parseEther]

/-- C7: while a game is running (started, not over, not paused), a cleanup
tick keeps exactly the objects whose age is under 1000 ms and removes all
the others. -/
theorem cleanup_removes_exactly_aged (gs go p : Bool) (now : ℤ)
    (objs : List GameObject) (o : GameObject)
    (hgs : gs = true) (hgo : go = false) (hp : p = false) :
    o ∈ cleanupEffectTick gs go p now objs ↔
      o ∈ objs ∧ now - o.spawnTime < 1000 := by
  subst hgs hgo hp
  simp [cleanupEffectTick, cleanupTick, List.mem_filter]

/-- Witness for C7 at a concrete running game and object list. -/
theorem cleanup_removes_exactly_aged_witness :
    witGameObjA ∈ cleanupEffectTick true false false 900 [witGameObjA, witGameObjB] ↔
      witGameObjA ∈ [witGameObjA, witGameObjB] ∧ 900 - witGameObjA.spawnTime < 1000 :=
  cleanup_removes_exactly_aged true false false 900 [witGameObjA, witGameObjB]
    witGameObjA rfl rfl rfl

/-- C9: every state of the `objects` list reachable from the initial empty
list by spawn, cleanup, bust and reset steps holds at most 30 entries, and
a spawn on a full list of 30 evicts the oldest (first) entry, appends the
new object and keeps the length at 30. -/
theorem objects_bounded_and_evict :
    (∀ es : List GameEvent, (runGame es).length ≤ 30) ∧
    (∀ (prev : List GameObject) (o : GameObject), prev.length = 30 →
      spawnPush prev o = prev.drop 1 ++ [o] ∧ (spawnPush prev o).length = 30) := by
  constructor
  · have key : ∀ (es : List GameEvent) (objs : List GameObject), objs.length ≤ 30 →
        (es.foldl (fun objs e => applyGameEvent e objs) objs).length ≤ 30 := by
      intro es
      induction es with
      | nil => intro objs h; simpa using h
      | cons e tl ih =>
          intro objs h
          rw [List.foldl_cons]
          apply ih
          cases e with
          | spawnEv o =>
              simp only [applyGameEvent, spawnPush]
              split
              · simp only [List.length_append, List.length_drop, List.length_singleton]
                omega
              · simp only [List.length_append, List.length_singleton]
                omega
          | cleanupEv now =>
              exact le_trans (List.length_filter_le _ _) h
          | bustEv id =>
              exact le_trans (List.length_filter_le _ _) h
          | clearEv => simp [applyGameEvent]
    exact fun es => key es [] (by simp)
  · intro prev o h
    refine ⟨by simp [spawnPush, h], ?_⟩
    simp [spawnPush, h]

/-- Witness for C9 at a concrete event list and a concrete full list. -/
theorem objects_bounded_and_evict_witness :
    (runGame [GameEvent.spawnEv witGameObjA, GameEvent.cleanupEv 900]).length ≤ 30 ∧
    spawnPush (List.replicate 30 witGameObjA) witGameObjB =
      (List.replicate 30 witGameObjA).drop 1 ++ [witGameObjB] ∧
    (spawnPush (List.replicate 30 witGameObjA) witGameObjB).length = 30 :=
  ⟨objects_bounded_and_evict.1 [GameEvent.spawnEv witGameObjA, GameEvent.cleanupEv 900],
   objects_bounded_and_evict.2 (List.replicate 30 witGameObjA) witGameObjB (by simp)⟩

/-- C3: with auto-fill enabled and the wallet and addresses present,
`autoFillGasIfNeeded` (i) returns true immediately, performing nothing,
when the smart account balance already covers the requirement,
(ii) returns false without sending any transaction when the main wallet
balance is below the 1.1-buffered transfer amount, and (iii) otherwise
transfers exactly 1.1 times the required amount, rounded to 6 decimals,
from the main wallet to the smart account address and returns true when
the transaction succeeds. -/
theorem auto_fill_spec (s acc : PState) (env : AutoFillEnv) (req : ℚ)
    (hEn : s.autoFillEnabled = true) (hSa : s.smartAccountAddress = true)
    (hAd : s.address = true) (hWc : s.walletClient = true) :
    (req ≤ s.monBalance → autoFillGasIfNeeded s acc env req = (true, [], acc)) ∧
    (s.monBalance < req → s.mainAccountMonBalance < toFixed6 (req * (11 / 10)) →
      autoFillGasIfNeeded s acc env req =
        (false, [], { acc with isAutoFilling := false })) ∧
    (s.monBalance < req → toFixed6 (req * (11 / 10)) ≤ s.mainAccountMonBalance →
      env.sendTxOk = true →
      (autoFillGasIfNeeded s acc env req).1 = true ∧
      (autoFillGasIfNeeded s acc env req).2.1 =
        [Action.sendTransaction TxDest.smartAccountAddr
          (parseEther (toFixed6 (req * (11 / 10))))]) := by
  unfold autoFillGasIfNeeded
  rw [hEn, hSa, hAd, hWc]
  refine ⟨fun hle => ?_, fun hlt hmain => ?_, fun hlt hmain hok => ?_⟩
  · simp [hle]
  · rw [if_neg (by simp [not_le_of_lt hlt])]
    simp [if_neg (not_le_of_lt hlt), hmain]
  · rw [if_neg (by simp), if_neg (by simpa using not_le_of_lt hlt),
      if_neg (not_lt_of_le hmain), if_pos hok]
    exact ⟨rfl, rfl⟩

/-- Witness for C3: a concrete under-funded smart account, auto-fill
transfers the buffered amount and reports success. -/
theorem auto_fill_spec_witness :
    (autoFillGasIfNeeded baseP baseP envOkAuto 2).1 = true ∧
    (autoFillGasIfNeeded baseP baseP envOkAuto 2).2.1 =
      [Action.sendTransaction TxDest.smartAccountAddr
        (parseEther (toFixed6 (2 * (11 / 10))))] :=
  (auto_fill_spec baseP baseP envOkAuto 2 rfl rfl rfl rfl).2.2
    (by norm_num [baseP]) (by norm_num [baseP, toFixed6, jsRound]) rfl

/-- C8: in both smart-account variants, `claimRewards` on a connected
smart account with pending rewards below 1 WMON only shows the threshold
alert and leaves the state unchanged - no user operation is submitted. -/
theorem claim_threshold_guard :
    (∀ (s : WState) (env : UserOpEnv), s.smartAccount = true →
      s.pendingRewards < 1 →
      claimRewardsW s env = ([Action.alert AlertKind.claimThreshold], s)) ∧
    (∀ (s : PState) (env : PEnv), s.smartAccount = true →
      s.pendingRewards < 1 →
      claimRewardsP s env = ([Action.alert AlertKind.claimThreshold], s)) := by
  constructor
  · intro s env hs hp
    unfold claimRewardsW
    rw [hs]
    simp [hp]
  · intro s env hs hp
    unfold claimRewardsP
    rw [hs]
    simp [hp]

/-- Witness for C8 at concrete states with 0.5 pending WMON. -/
theorem claim_threshold_guard_witness :
    claimRewardsW { baseW with pendingRewards := 1 / 2 } envOkW =
      ([Action.alert AlertKind.claimThreshold], { baseW with pendingRewards := 1 / 2 }) ∧
    claimRewardsP { baseP with pendingRewards := 1 / 2 } envOkP =
      ([Action.alert AlertKind.claimThreshold], { baseP with pendingRewards := 1 / 2 }) :=
  ⟨claim_threshold_guard.1 { baseW with pendingRewards := 1 / 2 } envOkW rfl (by norm_num),
   claim_threshold_guard.2 { baseP with pendingRewards := 1 / 2 } envOkP rfl (by norm_num)⟩

/-- C5: a run of the wagmi `saveScoreAndAccumulate` that starts unsaved
always finishes with `isSavingScore` false, and it finishes with
`scoreSaved` true exactly when the whole submission succeeded (bundler
present, balance at least the required gas, the user operation accepted
and its receipt received); every failure leaves `scoreSaved` false, so the
score can be saved again. -/
theorem save_failure_leaves_retryable (s : WState) (env : UserOpEnv)
    (hSm : s.smartAccount = true) (hSc : s.scoreSaved = false) :
    (saveScoreAndAccumulateW s env).2.isSavingScore = false ∧
    ((saveScoreAndAccumulateW s env).2.scoreSaved = true ↔
      (s.bundlerClient = true ∧
       calculateRequiredGas (getCurrentGasOptionsW s) ≤ s.monBalance ∧
       env.sendErr = none ∧ env.receiptErr = none)) := by
  unfold saveScoreAndAccumulateW
  rw [hSm, hSc]
  by_cases hb : s.bundlerClient
  · rw [hb]
    by_cases hlt : s.monBalance < calculateRequiredGas (getCurrentGasOptionsW s)
    · simp [hlt, hSc, not_le_of_lt hlt]
    · rcases hse : env.sendErr with _ | e
      · rcases hre : env.receiptErr with _ | e
        · simp [hlt, hse, hre, not_lt.mp hlt]
        · simp [hlt, hse, hre, hSc]
      · simp [hlt, hse, hSc]
  · simp only [Bool.not_eq_true] at hb
    simp [hb, hSc]

/-- Witness for C5: on the concrete funded state with a successful
environment the flow finishes saved; the same theorem instance also
certifies the failure characterisation. -/
theorem save_failure_leaves_retryable_witness :
    (saveScoreAndAccumulateW baseW envOkW).2.isSavingScore = false ∧
    ((saveScoreAndAccumulateW baseW envOkW).2.scoreSaved = true ↔
      (baseW.bundlerClient = true ∧
       calculateRequiredGas (getCurrentGasOptionsW baseW) ≤ baseW.monBalance ∧
       envOkW.sendErr = none ∧ envOkW.receiptErr = none)) :=
  save_failure_leaves_retryable baseW envOkW rfl rfl

/-- The actions of one auto-fill run are either nothing or exactly one
wallet transaction to the smart account address. -/
theorem autoFill_acts_cases (s acc : PState) (env : AutoFillEnv) (req : ℚ) :
    (autoFillGasIfNeeded s acc env req).2.1 = [] ∨
    ∃ v, (autoFillGasIfNeeded s acc env req).2.1 =
      [Action.sendTransaction TxDest.smartAccountAddr v] := by
  by_cases h1 : (!s.autoFillEnabled || !s.smartAccountAddress ||
      !s.address || !s.walletClient) = true
  · simp [autoFillGasIfNeeded, h1]
  · by_cases h2 : req ≤ s.monBalance
    · simp [autoFillGasIfNeeded, h1, h2]
    · by_cases h3 : s.mainAccountMonBalance < toFixed6 (req * (11 / 10))
      · simp [autoFillGasIfNeeded, h1, h2, h3]
      · by_cases h4 : env.sendTxOk = true
        · simp [autoFillGasIfNeeded, h1, h2, h3, h4]
        · simp [autoFillGasIfNeeded, h1, h2, h3, h4]

/-- The boolean result of an auto-fill run does not depend on the
accumulated state. -/
theorem autoFill_fst_eq (s acc : PState) (env : AutoFillEnv) (req : ℚ) :
    (autoFillGasIfNeeded s acc env req).1 = autoFillOk s env req := by
  by_cases h1 : (!s.autoFillEnabled || !s.smartAccountAddress ||
      !s.address || !s.walletClient) = true
  · simp [autoFillOk, autoFillGasIfNeeded, h1]
  · by_cases h2 : req ≤ s.monBalance
    · simp [autoFillOk, autoFillGasIfNeeded, h1, h2]
    · by_cases h3 : s.mainAccountMonBalance < toFixed6 (req * (11 / 10))
      · simp [autoFillOk, autoFillGasIfNeeded, h1, h2, h3]
      · by_cases h4 : env.sendTxOk = true
        · simp [autoFillOk, autoFillGasIfNeeded, h1, h2, h3, h4]
        · simp [autoFillOk, autoFillGasIfNeeded, h1, h2, h3, h4]

/-- C4: in the Pimlico variant the failed operation is re-scheduled exactly
when the error is classified as insufficient funds, auto-fill is enabled,
no auto-fill is already in progress (as seen by the handler's closure),
and the auto-fill call reports success; for any other error class the
`catch` block only shows an alert.  Stated for the save-score `catch`
(250000 gas units) and the transfer `catch` (200000 gas units). -/
theorem insufficient_funds_retry_conditions :
    (∀ (s acc : PState) (env : PEnv) (e : ErrKind),
      (Action.scheduleRetry OpKind.saveOp ∈ (saveCatchP s acc env e).1 ↔
        (e = ErrKind.insufficientFunds ∧ s.autoFillEnabled = true ∧
         s.isAutoFilling = false ∧
         autoFillOk s env.catchAutoFill
           (calculateRequiredGasMON (getCurrentGasOptionsP s) 250000) = true)) ∧
      (e ≠ ErrKind.insufficientFunds →
        ∃ k, (saveCatchP s acc env e).1 = [Action.alert k])) ∧
    (∀ (s acc : PState) (env : PTransferEnv) (e : ErrKind),
      (Action.scheduleRetry OpKind.transferOp ∈ (transferCatchP s acc env e).1 ↔
        (e = ErrKind.insufficientFunds ∧ s.autoFillEnabled = true ∧
         s.isAutoFilling = false ∧
         autoFillOk s env.catchAutoFill
           (calculateRequiredGasMON (getCurrentGasOptionsP s) 200000) = true)) ∧
      (e ≠ ErrKind.insufficientFunds →
        ∃ k, (transferCatchP s acc env e).1 = [Action.alert k])) := by
  constructor
  · intro s acc env e
    have hOk := autoFill_fst_eq s acc env.catchAutoFill
      (calculateRequiredGasMON (getCurrentGasOptionsP s) 250000)
    have hActs := autoFill_acts_cases s acc env.catchAutoFill
      (calculateRequiredGasMON (getCurrentGasOptionsP s) 250000)
    rcases hA : autoFillGasIfNeeded s acc env.catchAutoFill
        (calculateRequiredGasMON (getCurrentGasOptionsP s) 250000) with ⟨ok, aActs, acc1⟩
    rw [hA] at hOk hActs
    have hNoRetry : Action.scheduleRetry OpKind.saveOp ∉ aActs := by
      rcases hActs with h | ⟨v, h⟩
      · have h2 : aActs = [] := h
        simp [h2]
      · have h2 : aActs = [Action.sendTransaction TxDest.smartAccountAddr v] := h
        simp [h2]
    cases e <;> cases ok <;>
      cases hE : s.autoFillEnabled <;> cases hF : s.isAutoFilling <;>
        simp_all [saveCatchP, hA, hNoRetry]
  · intro s acc env e
    have hOk := autoFill_fst_eq s acc env.catchAutoFill
      (calculateRequiredGasMON (getCurrentGasOptionsP s) 200000)
    have hActs := autoFill_acts_cases s acc env.catchAutoFill
      (calculateRequiredGasMON (getCurrentGasOptionsP s) 200000)
    rcases hA : autoFillGasIfNeeded s acc env.catchAutoFill
        (calculateRequiredGasMON (getCurrentGasOptionsP s) 200000) with ⟨ok, aActs, acc1⟩
    rw [hA] at hOk hActs
    have hNoRetry : Action.scheduleRetry OpKind.transferOp ∉ aActs := by
      rcases hActs with h | ⟨v, h⟩
      · have h2 : aActs = [] := h
        simp [h2]
      · have h2 : aActs = [Action.sendTransaction TxDest.smartAccountAddr v] := h
        simp [h2]
    cases e <;> cases ok <;>
      cases hE : s.autoFillEnabled <;> cases hF : s.isAutoFilling <;>
        simp_all [transferCatchP, hA, hNoRetry]

/-- A Pimlico transfer environment in which every external call succeeds
and the gas-price fetch falls back to the presets. -/
def envTOkP : PTransferEnv :=
  { walletTxErr := none, pimlicoGas := none, autoFill := envOkAuto,
    sendErr := none, receiptErr := none, catchAutoFill := envOkAuto }

/-- Witness for C4: a timeout in the save `catch` yields only an alert, and
the transfer `catch` retry equivalence instantiated at an
insufficient-funds error on the concrete state. -/
theorem insufficient_funds_retry_conditions_witness :
    (∃ k, (saveCatchP baseP baseP envOkP ErrKind.timeout).1 = [Action.alert k]) ∧
    (Action.scheduleRetry OpKind.transferOp ∈
        (transferCatchP baseP baseP envTOkP ErrKind.insufficientFunds).1 ↔
      (ErrKind.insufficientFunds = ErrKind.insufficientFunds ∧
       baseP.autoFillEnabled = true ∧ baseP.isAutoFilling = false ∧
       autoFillOk baseP envTOkP.catchAutoFill
         (calculateRequiredGasMON (getCurrentGasOptionsP baseP) 200000) = true)) :=
  ⟨(insufficient_funds_retry_conditions.1 baseP baseP envOkP ErrKind.timeout).2
      (by decide),
   (insufficient_funds_retry_conditions.2 baseP baseP envTOkP
      ErrKind.insufficientFunds).1⟩

/-- A wagmi state in the middle of a game whose score has been saved. -/
def savedW : WState := { baseW with scoreSaved := true, gameStarted := true }

/-- A wagmi state whose game has finished and whose score has been saved. -/
def finishedSavedW : WState :=
  { baseW with gameStarted := true, gameOver := true, scoreSaved := true }

/-- Counterexample to C10 as stated: `scoreSaved` is not reset only when a
new game starts, and the score is not committed at most once per game.
`quitGame` resets `scoreSaved` while ending the game, and
`disconnectWallet` resets it while leaving the finished game
(`gameStarted`, `gameOver`, `score`) untouched - so once the
re-initialisation effect restores the smart account, the very same
finished game's score passes the guard again and `addScore` is submitted
a second time. -/
theorem score_saved_reset_beyond_game_start :
    savedW.scoreSaved = true ∧
    (quitGameW savedW).scoreSaved = false ∧
    (quitGameW savedW).gameStarted = false ∧
    finishedSavedW.scoreSaved = true ∧
    (disconnectWalletW finishedSavedW).scoreSaved = false ∧
    (disconnectWalletW finishedSavedW).gameStarted = true ∧
    (disconnectWalletW finishedSavedW).gameOver = true ∧
    (disconnectWalletW finishedSavedW).score = finishedSavedW.score ∧
    (initializeSmartAccountW (disconnectWalletW finishedSavedW) 1 5 2 3 2
        { totalScore := 0, totalGames := 0, pendingRewardsStat := 0,
          totalClaimed := 0 }).score = finishedSavedW.score ∧
    Action.sendUserOperation CallTarget.rewardAddScore ∈
      (saveScoreAndAccumulateW
        (initializeSmartAccountW (disconnectWalletW finishedSavedW) 1 5 2 3 2
          { totalScore := 0, totalGames := 0, pendingRewardsStat := 0,
            totalClaimed := 0 }) envOkW).1 := by
  refine ⟨rfl, rfl, rfl, rfl, rfl, rfl, rfl, rfl, rfl, ?_⟩
  norm_num [saveScoreAndAccumulateW, initializeSmartAccountW, disconnectWalletW,
    finishedSavedW, baseW, getCurrentGasOptionsW, GAS_SPEED_OPTIONS,
    calculateRequiredGas, parseEther, envOkW]

set_option maxHeartbeats 1000000 in
/-- C10 (amended): `saveScoreAndAccumulate` returns immediately with no
action when `scoreSaved` is already true, and a run can leave `scoreSaved`
true only if it was already true or the user operation was submitted and
its receipt received; but `scoreSaved` is reset to false not only when a
new game starts - quitting the game and disconnecting the wallet also
reset it, the game-start effect resets it whenever the game is started,
and the claim and transfer handlers never change it.  A wallet disconnect
preserves `gameStarted`, `gameOver` and `score`, so after the
re-initialisation effect restores the smart account the same game's score
passes the guard again and is submitted a second time: the score is
committed at most once per game only while the wallet stays connected and
the game is not quit or restarted. -/
theorem score_saved_lifecycle_amended :
    (∀ (s : WState) (env : UserOpEnv), s.scoreSaved = true →
      saveScoreAndAccumulateW s env = ([], s)) ∧
    (∀ (s : WState) (env : UserOpEnv),
      (saveScoreAndAccumulateW s env).2.scoreSaved = true →
        s.scoreSaved = true ∨
        (Action.sendUserOperation CallTarget.rewardAddScore ∈
           (saveScoreAndAccumulateW s env).1 ∧
         env.sendErr = none ∧ env.receiptErr = none)) ∧
    (∀ s : WState, s.isConnected = true → (startGameW s).2.scoreSaved = false) ∧
    (∀ s : WState, (quitGameW s).scoreSaved = false) ∧
    (∀ s : WState, (disconnectWalletW s).scoreSaved = false ∧
      (disconnectWalletW s).gameStarted = s.gameStarted ∧
      (disconnectWalletW s).gameOver = s.gameOver ∧
      (disconnectWalletW s).score = s.score) ∧
    (∀ s : WState, s.gameStarted = true → (scoreSavedEffectW s).scoreSaved = false) ∧
    (∀ (s : WState) (env : UserOpEnv),
      (claimRewardsW s env).2.scoreSaved = s.scoreSaved) ∧
    (∀ (s : WState) (env : TransferEnvW),
      (transferFundsW s env).2.scoreSaved = s.scoreSaved) ∧
    (∀ (s : WState) (env : UserOpEnv) (mon mainMon wmon mainWmon pr : ℚ)
        (ps : PlayerStats),
      env.sendErr = none →
      calculateRequiredGas (getCurrentGasOptionsW
          (initializeSmartAccountW (disconnectWalletW s) mon mainMon wmon mainWmon
            pr ps)) ≤ mon →
      Action.sendUserOperation CallTarget.rewardAddScore ∈
        (saveScoreAndAccumulateW
          (initializeSmartAccountW (disconnectWalletW s) mon mainMon wmon mainWmon
            pr ps) env).1 ∧
      (initializeSmartAccountW (disconnectWalletW s) mon mainMon wmon mainWmon
        pr ps).score = s.score) := by
  refine ⟨?_, ?_, ?_, ?_, ?_, ?_, ?_, ?_, ?_⟩
  · intro s env h
    unfold saveScoreAndAccumulateW
    simp [h]
  · intro s env h
    by_cases hSc : s.scoreSaved = true
    · exact Or.inl hSc
    · have hSc2 : s.scoreSaved = false := by
        revert hSc; cases s.scoreSaved <;> simp
      right
      rcases hse : env.sendErr with _ | e <;>
        rcases hre : env.receiptErr with _ | e2 <;>
          simp only [saveScoreAndAccumulateW, hse, hre] at h ⊢ <;>
            split_ifs at h ⊢ <;> simp_all
  · intro s h
    unfold startGameW
    simp [h]
  · intro s; rfl
  · intro s; exact ⟨rfl, rfl, rfl, rfl⟩
  · intro s h
    unfold scoreSavedEffectW
    simp [h]
  · intro s env
    rcases hse : env.sendErr with _ | e <;>
      rcases hre : env.receiptErr with _ | e2 <;>
        simp only [claimRewardsW, hse, hre] <;>
          split_ifs <;> rfl
  · intro s env
    rcases hwt : env.walletTxErr with _ | e0 <;>
      rcases hse : env.sendErr with _ | e1 <;>
        rcases hre : env.receiptErr with _ | e2 <;>
          cases hd : s.transferDirection <;> cases ht : s.transferType <;>
            simp only [transferFundsW, finishTransferW, hwt, hse, hre, hd, ht] <;>
              split_ifs <;> rfl
  · intro s env mon mainMon wmon mainWmon pr ps hse hreq
    have hreq2 : ¬ ((initializeSmartAccountW (disconnectWalletW s) mon mainMon
        wmon mainWmon pr ps).monBalance <
        calculateRequiredGas (getCurrentGasOptionsW
          (initializeSmartAccountW (disconnectWalletW s) mon mainMon wmon mainWmon
            pr ps))) := not_lt.mpr hreq
    refine ⟨?_, rfl⟩
    simp only [saveScoreAndAccumulateW]
    rw [if_neg (by simp [initializeSmartAccountW, disconnectWalletW]),
        if_neg (by simp [initializeSmartAccountW]), if_neg hreq2]
    rcases hre : env.receiptErr with _ | e <;> simp [hse, hre]

/-- Witness for C10 (amended) at concrete states: the already-saved guard,
the game-start effect, and the second submission of the same finished
game's score after a disconnect and smart-account re-initialisation. -/
theorem score_saved_lifecycle_amended_witness :
    saveScoreAndAccumulateW savedW envOkW = ([], savedW) ∧
    (startGameW baseW).2.scoreSaved = false ∧
    (scoreSavedEffectW savedW).scoreSaved = false ∧
    Action.sendUserOperation CallTarget.rewardAddScore ∈
      (saveScoreAndAccumulateW
        (initializeSmartAccountW (disconnectWalletW finishedSavedW) 1 5 2 3 2
          { totalScore := 0, totalGames := 0, pendingRewardsStat := 0,
            totalClaimed := 0 }) envOkW).1 ∧
    (initializeSmartAccountW (disconnectWalletW finishedSavedW) 1 5 2 3 2
      { totalScore := 0, totalGames := 0, pendingRewardsStat := 0,
        totalClaimed := 0 }).score = finishedSavedW.score :=
  ⟨score_saved_lifecycle_amended.1 savedW envOkW rfl,
   score_saved_lifecycle_amended.2.2.1 baseW rfl,
   score_saved_lifecycle_amended.2.2.2.2.2.1 savedW rfl,
   score_saved_lifecycle_amended.2.2.2.2.2.2.2.2 finishedSavedW envOkW 1 5 2 3 2
     { totalScore := 0, totalGames := 0, pendingRewardsStat := 0,
       totalClaimed := 0 } rfl
     (by norm_num [initializeSmartAccountW, disconnectWalletW, finishedSavedW,
       baseW, getCurrentGasOptionsW, GAS_SPEED_OPTIONS, calculateRequiredGas,
       parseEther])⟩

/-- Counterexample to C1 as stated: the plain-ethers component's
`saveScore` performs an on-chain write (it submits `contract.saveScore`
straight through the signer) with no smart-account user-operation flow and
no balance check of any kind - its component state (`EState`) records no
balances and its action type has no user-operation constructor, yet the
write is submitted.  So not every on-chain write of the app is submitted
through the balance-checked user-operation flow. -/
theorem onchain_write_outside_userop_flow :
    saveScoreEthers { windowEthereum := true, walletAddress := true } true =
      ([EAction.contractSaveScoreTx, EAction.alertE AlertKind.savedOnChain],
       { windowEthereum := true, walletAddress := true }) := rfl

/-- The transfer `catch` block never submits a user operation: it only
performs the auto-fill wallet transaction, alerts and retry scheduling. -/
theorem transferCatchP_no_userop (s acc : PState) (env : PTransferEnv)
    (e : ErrKind) (t : CallTarget) :
    Action.sendUserOperation t ∉ (transferCatchP s acc env e).1 := by
  have hActs := autoFill_acts_cases s acc env.catchAutoFill
    (calculateRequiredGasMON (getCurrentGasOptionsP s) 200000)
  rcases hA : autoFillGasIfNeeded s acc env.catchAutoFill
      (calculateRequiredGasMON (getCurrentGasOptionsP s) 200000) with ⟨ok, aActs, acc1⟩
  rw [hA] at hActs
  have hNoU : Action.sendUserOperation t ∉ aActs := by
    rcases hActs with h2 | ⟨v, h2⟩
    · have h3 : aActs = [] := h2
      simp [h3]
    · have h3 : aActs = [Action.sendTransaction TxDest.smartAccountAddr v] := h2
      simp [h3]
  cases e <;> cases ok <;> cases hE : s.autoFillEnabled <;>
    cases hF : s.isAutoFilling <;> simp_all [transferCatchP, hA]

set_option maxHeartbeats 1000000 in
/-- C1 (amended): every smart-account user operation the two smart-account
variants submit (saving a score, claiming rewards, transferring funds out
of the smart account) is sent only after the balance check: the recorded
smart-account MON balance is at least the computed required gas, or (in
the Pimlico variant) the auto-funding call reported success first.  The
plain-ethers score save and the main-wallet-to-smart-account transfers are
ordinary wallet transactions outside this flow. -/
theorem userop_only_after_balance_check :
    (∀ (s : WState) (env : UserOpEnv) (t : CallTarget),
      Action.sendUserOperation t ∈ (saveScoreAndAccumulateW s env).1 →
        calculateRequiredGas (getCurrentGasOptionsW s) ≤ s.monBalance) ∧
    (∀ (s : WState) (env : UserOpEnv) (t : CallTarget),
      Action.sendUserOperation t ∈ (claimRewardsW s env).1 →
        calculateRequiredGas (getCurrentGasOptionsW s) ≤ s.monBalance) ∧
    (∀ (s : WState) (env : TransferEnvW) (t : CallTarget),
      Action.sendUserOperation t ∈ (transferFundsW s env).1 →
        calculateRequiredGas (getCurrentGasOptionsW s) ≤ s.monBalance) ∧
    (∀ (s : PState) (env : PEnv) (t : CallTarget),
      Action.sendUserOperation t ∈ (saveScoreAndAccumulateP s env).1 →
        calculateRequiredGasMON
            (weiBigIntToGweiNumber (pimlicoFee env (getCurrentGasOptionsP s))) 250000 ≤
          s.monBalance ∨
        autoFillOk s env.autoFill
          (calculateRequiredGasMON
            (weiBigIntToGweiNumber (pimlicoFee env (getCurrentGasOptionsP s))) 250000) = true) ∧
    (∀ (s : PState) (env : PEnv) (t : CallTarget),
      Action.sendUserOperation t ∈ (claimRewardsP s env).1 →
        calculateRequiredGasMON
            (weiBigIntToGweiNumber (pimlicoFee env (getCurrentGasOptionsP s))) 250000 ≤
          s.monBalance ∨
        autoFillOk s env.autoFill
          (calculateRequiredGasMON
            (weiBigIntToGweiNumber (pimlicoFee env (getCurrentGasOptionsP s))) 250000) = true) ∧
    (∀ (s : PState) (env : PTransferEnv) (t : CallTarget),
      Action.sendUserOperation t ∈ (transferFundsP s env).1 →
        calculateRequiredGasMON
            (weiBigIntToGweiNumber
              ((env.pimlicoGas.map Prod.fst).getD
                (gweiToWeiBigInt (getCurrentGasOptionsP s)))) 200000 ≤
          s.monBalance ∨
        autoFillOk s env.autoFill
          (calculateRequiredGasMON
            (weiBigIntToGweiNumber
              ((env.pimlicoGas.map Prod.fst).getD
                (gweiToWeiBigInt (getCurrentGasOptionsP s)))) 200000) = true) := by
  refine ⟨?_, ?_, ?_, ?_, ?_, ?_⟩
  · intro s env t h
    by_cases hlt : s.monBalance < calculateRequiredGas (getCurrentGasOptionsW s)
    · exfalso
      rcases hse : env.sendErr with _ | e <;>
        rcases hre : env.receiptErr with _ | e2 <;>
          simp only [saveScoreAndAccumulateW, hse, hre] at h <;>
            split_ifs at h <;> simp_all
    · exact not_lt.mp hlt
  · intro s env t h
    by_cases hlt : s.monBalance < calculateRequiredGas (getCurrentGasOptionsW s)
    · exfalso
      rcases hse : env.sendErr with _ | e <;>
        rcases hre : env.receiptErr with _ | e2 <;>
          simp only [claimRewardsW, hse, hre] at h <;>
            split_ifs at h <;> simp_all
    · exact not_lt.mp hlt
  · intro s env t h
    by_cases hlt : s.monBalance < calculateRequiredGas (getCurrentGasOptionsW s)
    · exfalso
      rcases hwt : env.walletTxErr with _ | e0 <;>
        rcases hse : env.sendErr with _ | e1 <;>
          rcases hre : env.receiptErr with _ | e2 <;>
            cases hd : s.transferDirection <;> cases ht : s.transferType <;>
              simp only [transferFundsW, finishTransferW, hwt, hse, hre, hd, ht] at h <;>
                split_ifs at h <;> simp_all
    · exact not_lt.mp hlt
  · intro s env t h
    by_cases hlt : s.monBalance <
        calculateRequiredGasMON
          (weiBigIntToGweiNumber (pimlicoFee env (getCurrentGasOptionsP s))) 250000
    · by_cases hen : s.autoFillEnabled = true
      · rcases hA : autoFillGasIfNeeded s { s with isSavingScore := true } env.autoFill
            (calculateRequiredGasMON
              (weiBigIntToGweiNumber (pimlicoFee env (getCurrentGasOptionsP s))) 250000)
          with ⟨ok, aActs, acc1⟩
        have hOk := autoFill_fst_eq s { s with isSavingScore := true } env.autoFill
          (calculateRequiredGasMON
            (weiBigIntToGweiNumber (pimlicoFee env (getCurrentGasOptionsP s))) 250000)
        rw [hA] at hOk
        cases ok
        · exfalso
          have hActs := autoFill_acts_cases s { s with isSavingScore := true } env.autoFill
            (calculateRequiredGasMON
              (weiBigIntToGweiNumber (pimlicoFee env (getCurrentGasOptionsP s))) 250000)
          rw [hA] at hActs
          have hNoU : Action.sendUserOperation t ∉ aActs := by
            rcases hActs with h2 | ⟨v, h2⟩
            · have h3 : aActs = [] := h2
              simp [h3]
            · have h3 : aActs = [Action.sendTransaction TxDest.smartAccountAddr v] := h2
              simp [h3]
          simp only [saveScoreAndAccumulateP, hA] at h
          split_ifs at h <;> simp_all
        · exact Or.inr hOk.symm
      · exfalso
        simp only [saveScoreAndAccumulateP] at h
        split_ifs at h <;> simp_all
    · exact Or.inl (not_lt.mp hlt)
  · intro s env t h
    by_cases hlt : s.monBalance <
        calculateRequiredGasMON
          (weiBigIntToGweiNumber (pimlicoFee env (getCurrentGasOptionsP s))) 250000
    · by_cases hen : s.autoFillEnabled = true
      · rcases hA : autoFillGasIfNeeded s { s with isClaiming := true } env.autoFill
            (calculateRequiredGasMON
              (weiBigIntToGweiNumber (pimlicoFee env (getCurrentGasOptionsP s))) 250000)
          with ⟨ok, aActs, acc1⟩
        have hOk := autoFill_fst_eq s { s with isClaiming := true } env.autoFill
          (calculateRequiredGasMON
            (weiBigIntToGweiNumber (pimlicoFee env (getCurrentGasOptionsP s))) 250000)
        rw [hA] at hOk
        cases ok
        · exfalso
          have hActs := autoFill_acts_cases s { s with isClaiming := true } env.autoFill
            (calculateRequiredGasMON
              (weiBigIntToGweiNumber (pimlicoFee env (getCurrentGasOptionsP s))) 250000)
          rw [hA] at hActs
          have hNoU : Action.sendUserOperation t ∉ aActs := by
            rcases hActs with h2 | ⟨v, h2⟩
            · have h3 : aActs = [] := h2
              simp [h3]
            · have h3 : aActs = [Action.sendTransaction TxDest.smartAccountAddr v] := h2
              simp [h3]
          simp only [claimRewardsP, hA] at h
          split_ifs at h <;> simp_all
        · exact Or.inr hOk.symm
      · exfalso
        simp only [claimRewardsP] at h
        split_ifs at h <;> simp_all
    · exact Or.inl (not_lt.mp hlt)
  · intro s env t h
    by_cases hlt : s.monBalance <
        calculateRequiredGasMON
          (weiBigIntToGweiNumber
            ((env.pimlicoGas.map Prod.fst).getD
              (gweiToWeiBigInt (getCurrentGasOptionsP s)))) 200000
    · by_cases hen : s.autoFillEnabled = true
      · rcases hA : autoFillGasIfNeeded s { s with isTransferring := true } env.autoFill
            (calculateRequiredGasMON
              (weiBigIntToGweiNumber
                ((env.pimlicoGas.map Prod.fst).getD
                  (gweiToWeiBigInt (getCurrentGasOptionsP s)))) 200000)
          with ⟨ok, aActs, acc1⟩
        have hOk := autoFill_fst_eq s { s with isTransferring := true } env.autoFill
          (calculateRequiredGasMON
            (weiBigIntToGweiNumber
              ((env.pimlicoGas.map Prod.fst).getD
                (gweiToWeiBigInt (getCurrentGasOptionsP s)))) 200000)
        rw [hA] at hOk
        cases ok
        · exfalso
          have hActs := autoFill_acts_cases s { s with isTransferring := true } env.autoFill
            (calculateRequiredGasMON
              (weiBigIntToGweiNumber
                ((env.pimlicoGas.map Prod.fst).getD
                  (gweiToWeiBigInt (getCurrentGasOptionsP s)))) 200000)
          rw [hA] at hActs
          have hNoU : Action.sendUserOperation t ∉ aActs := by
            rcases hActs with h2 | ⟨v, h2⟩
            · have h3 : aActs = [] := h2
              simp [h3]
            · have h3 : aActs = [Action.sendTransaction TxDest.smartAccountAddr v] := h2
              simp [h3]
          rcases hwt : env.walletTxErr with _ | e0 <;>
            cases hd : s.transferDirection <;> cases ht : s.transferType <;>
              simp only [transferFundsP, hA, hwt, hd, ht] at h <;>
                split_ifs at h <;>
                  first
                    | exact transferCatchP_no_userop _ _ _ _ _ h
                    | simp_all
        · exact Or.inr hOk.symm
      · exfalso
        rcases hwt : env.walletTxErr with _ | e0 <;>
          cases hd : s.transferDirection <;> cases ht : s.transferType <;>
            simp only [transferFundsP, hwt, hd, ht] at h <;>
              split_ifs at h <;>
                first
                  | exact transferCatchP_no_userop _ _ _ _ _ h
                  | simp_all
    · exact Or.inl (not_lt.mp hlt)

/-- Witness for C1 (amended): the wagmi save flow at the concrete funded
state submits its user operation and the theorem recovers the balance
bound. -/
theorem userop_only_after_balance_check_witness :
    calculateRequiredGas (getCurrentGasOptionsW baseW) ≤ baseW.monBalance :=
  userop_only_after_balance_check.1 baseW envOkW CallTarget.rewardAddScore
    (by norm_num [saveScoreAndAccumulateW, baseW, getCurrentGasOptionsW,
      GAS_SPEED_OPTIONS, calculateRequiredGas, parseEther, envOkW])

/-- Witness for C2 at the concrete 10-gwei price. -/
theorem gas_estimators_agree_witness :
    calculateRequiredGas { maxFeePerGas := 10 ^ 10, maxPriorityFeePerGas := 10 ^ 10 } =
      calculateRequiredGasMON (weiBigIntToGweiNumber (10 ^ 10)) 200000 ∧
    calculateRequiredGas { maxFeePerGas := 10 ^ 10, maxPriorityFeePerGas := 10 ^ 10 } =
      (((10 : ℤ) ^ 10 : ℚ) / 10 ^ 18) * 200000 * (12 / 10) :=
  gas_estimators_agree (10 ^ 10)

/-- Witness for C6 at the standard preset. -/
theorem gas_presets_consistent_witness :
    (GAS_SPEED_OPTIONS .standard).maxPriorityFeePerGas =
      (GAS_SPEED_OPTIONS .standard).maxFeePerGas ∧
    gweiToWeiBigInt (GAS_SPEED_OPTIONS_P .standard) =
      (GAS_SPEED_OPTIONS .standard).maxFeePerGas :=
  ⟨gas_presets_consistent.1 .standard, gas_presets_consistent.2.2.2.2 .standard⟩

end EgoBust
